import Mathlib

/-!
# Protocol identifiers and block versions (`bcos-framework/protocol/Protocol.h`)

A shallow embedding of the constants and routines of `Protocol.h`: the flag
and identifier enumerations, `versionCompareTo`, the `BlockVersion` and
`NodeType` stream renderers, `stringToModuleID` and `moduleIDToString`,
followed by theorems about them.

Conventions of the embedding.
* `uint32_t` values are natural numbers; `static_cast<uint32_t>` is reduction
  modulo `2^32`, and a theorem about "32-bit" values carries the bound as a
  hypothesis.
* An enumeration is a structure around its underlying value, so that values
  that are not enumerators (which the `default:` branches handle) exist.
* `std::string` is `String`, one `Char` per C++ `char`.
* `std::ostream` is the text written to it so far; `_out << s` appends.
-/

namespace boost

/-- The standard library routine `std::toupper(c, loc)` that `is_iequal` calls,
in the classic "C" locale (the global locale of a program that sets none):
the letters `a`..`z` are moved to `A`..`Z`, every other character is left
alone. -/
def toupper (c : Char) : Char :=
  if 'a'.toNat ≤ c.toNat ∧ c.toNat ≤ 'z'.toNat then
    Char.ofNat (c.toNat - ('a'.toNat - 'A'.toNat))
  else c

/-- The Boost.StringAlgo functor `is_iequal` (an external library), the
element predicate of the case-insensitive comparison: two characters are
alike when their upper-case forms coincide. -/
def is_iequal (Arg1 Arg2 : Char) : Bool :=
  toupper Arg1 == toupper Arg2

/-- The Boost.StringAlgo routine `equals` (an external library): walk both
ranges together, stop with `false` at the first pair the predicate rejects,
and accept only when both ranges end together. -/
def equals (Comp : Char → Char → Bool) : List Char → List Char → Bool
  | a :: Input, b :: Test => if !Comp a b then false else equals Comp Input Test
  | [], [] => true
  | _ :: _, [] => false
  | [], _ :: _ => false

/-- The Boost.StringAlgo routine `iequals` (an external library), called by
`stringToModuleID`: `equals` with the predicate `is_iequal`. -/
def iequals (Input Test : String) : Bool :=
  equals is_iequal Input.data Test.data

end boost

namespace bcos.protocol

/-- The modulus of `uint32_t`. -/
def UINT32_MOD : Nat := 4294967296

/-- The unscoped `enum MessageExtFieldFlag : uint32_t`, as its underlying
value. -/
structure MessageExtFieldFlag where
  val : Nat
  deriving DecidableEq, Repr

def MessageExtFieldFlag.Response : MessageExtFieldFlag := ⟨0x0001⟩
def MessageExtFieldFlag.Compress : MessageExtFieldFlag := ⟨0x0010⟩

/-- The unscoped `enum NodeType : uint32_t`, as its underlying value. -/
structure NodeType where
  val : Nat
  deriving DecidableEq, Repr

def NodeType.None : NodeType := ⟨0x0⟩
def NodeType.LIGHT_NODE : NodeType := ⟨0x1⟩
def NodeType.CONSENSUS_NODE : NodeType := ⟨0x2⟩
def NodeType.OBSERVER_NODE : NodeType := ⟨0x4⟩
def NodeType.NODE_OUTSIDE_GROUP : NodeType := ⟨0x8⟩

/-- The unscoped `enum ModuleID` (no fixed underlying type), as its underlying
value. -/
structure ModuleID where
  val : Nat
  deriving DecidableEq, Repr

def ModuleID.PBFT : ModuleID := ⟨1000⟩
def ModuleID.Raft : ModuleID := ⟨1001⟩
def ModuleID.BlockSync : ModuleID := ⟨2000⟩
def ModuleID.TxsSync : ModuleID := ⟨2001⟩
def ModuleID.ConsTxsSync : ModuleID := ⟨2002⟩
def ModuleID.AMOP : ModuleID := ⟨3000⟩
def ModuleID.LIGHTNODE_GET_BLOCK : ModuleID := ⟨4000⟩
def ModuleID.LIGHTNODE_GET_TRANSACTIONS : ModuleID := ⟨4001⟩
def ModuleID.LIGHTNODE_GET_RECEIPTS : ModuleID := ⟨4002⟩
def ModuleID.LIGHTNODE_GET_STATUS : ModuleID := ⟨4003⟩
def ModuleID.LIGHTNODE_SEND_TRANSACTION : ModuleID := ⟨4004⟩
def ModuleID.LIGHTNODE_CALL : ModuleID := ⟨4005⟩
def ModuleID.LIGHTNODE_GET_ABI : ModuleID := ⟨4006⟩
def ModuleID.LIGHTNODE_END : ModuleID := ⟨4999⟩
def ModuleID.SYNC_PUSH_TRANSACTION : ModuleID := ⟨5000⟩
def ModuleID.SYNC_GET_TRANSACTIONS : ModuleID := ⟨5001⟩
def ModuleID.SYNC_END : ModuleID := ⟨5999⟩

/-- The scoped `enum class BlockVersion : uint32_t`, as its underlying value. -/
structure BlockVersion where
  val : Nat
  deriving DecidableEq, Repr

def BlockVersion.V3_2_VERSION : BlockVersion := ⟨0x03020000⟩
def BlockVersion.V3_1_VERSION : BlockVersion := ⟨0x03010000⟩
def BlockVersion.V3_0_VERSION : BlockVersion := ⟨0x03000000⟩
def BlockVersion.RC4_VERSION : BlockVersion := ⟨4⟩
def BlockVersion.MIN_VERSION : BlockVersion := BlockVersion.RC4_VERSION
def BlockVersion.MAX_VERSION : BlockVersion := BlockVersion.V3_2_VERSION

def RC4_VERSION_STR : String := "3.0.0-rc4"
def V3_0_VERSION_STR : String := "3.0.0"
def V3_1_VERSION_STR : String := "3.1.0"
def V3_2_VERSION_STR : String := "3.2.0"

def DEFAULT_VERSION : BlockVersion := BlockVersion.V3_1_VERSION

/-- The constant `MAX_MAJOR_VERSION`, `std::numeric_limits<uint8_t>::max()`. -/
def MAX_MAJOR_VERSION : Nat := 255

def MIN_MAJOR_VERSION : Nat := 3

/-- The first parameter of `versionCompareTo`,
`std::variant<uint32_t, BlockVersion>`. -/
inductive VersionVariant where
  | uint32 (arg : Nat)
  | blockVersion (arg : BlockVersion)
  deriving DecidableEq, Repr

/-- The conversion `static_cast<uint32_t>(arg)` inside the visitor, once per
alternative of the variant. -/
def VersionVariant.static_cast_uint32 : VersionVariant → Nat
  | .uint32 arg => arg % UINT32_MOD
  | .blockVersion arg => arg.val % UINT32_MOD

/-- The function `versionCompareTo`: the visitor always runs, so the initial
`flag = 0` is overwritten by the two assignments, kept here in the order of
the source. -/
def versionCompareTo (_v1 : VersionVariant) (_v2 : BlockVersion) : Int :=
  let ver1 := _v1.static_cast_uint32
  let ver2 := _v2.val % UINT32_MOD
  let flag : Int := if ver1 > ver2 then 1 else -1
  let flag : Int := if ver1 = ver2 then 0 else flag
  flag

/-- The renderer `operator<<(std::ostream&, BlockVersion const&)`: the stream
after the call, given the stream before it. -/
def BlockVersion.operator_shl (_out : String) (_version : BlockVersion) : String :=
  if _version = BlockVersion.RC4_VERSION then _out ++ RC4_VERSION_STR
  else if _version = BlockVersion.V3_0_VERSION then _out ++ V3_0_VERSION_STR
  else if _version = BlockVersion.V3_1_VERSION then _out ++ V3_1_VERSION_STR
  else if _version = BlockVersion.V3_2_VERSION then _out ++ V3_2_VERSION_STR
  else _out ++ "Unknown"

/-- The renderer `operator<<(std::ostream&, NodeType const&)`: the stream after
the call, given the stream before it. -/
def NodeType.operator_shl (_out : String) (_nodeType : NodeType) : String :=
  if _nodeType = NodeType.None then _out ++ "None"
  else if _nodeType = NodeType.CONSENSUS_NODE then _out ++ "CONSENSUS_NODE"
  else if _nodeType = NodeType.OBSERVER_NODE then _out ++ "OBSERVER_NODE"
  else if _nodeType = NodeType.LIGHT_NODE then _out ++ "LIGHT_NODE"
  else if _nodeType = NodeType.NODE_OUTSIDE_GROUP then _out ++ "NODE_OUTSIDE_GROUP"
  else _out ++ "Unknown"

/-- The function `stringToModuleID`: the first table name that `iequals` the
argument decides the id. -/
def stringToModuleID (_moduleName : String) : Option ModuleID :=
  if boost.iequals _moduleName "raft" then some ModuleID.Raft
  else if boost.iequals _moduleName "pbft" then some ModuleID.PBFT
  else if boost.iequals _moduleName "amop" then some ModuleID.AMOP
  else if boost.iequals _moduleName "block_sync" then some ModuleID.BlockSync
  else if boost.iequals _moduleName "txs_sync" then some ModuleID.TxsSync
  else if boost.iequals _moduleName "cons_txs_sync" then some ModuleID.ConsTxsSync
  else if boost.iequals _moduleName "light_node" then some ModuleID.LIGHTNODE_GET_BLOCK
  else none

/-- The function `moduleIDToString`: a `switch` over the enumerators, with the
sentinel in the `default:` branch. -/
def moduleIDToString (_moduleID : ModuleID) : String :=
  if _moduleID = ModuleID.PBFT then "pbft"
  else if _moduleID = ModuleID.Raft then "raft"
  else if _moduleID = ModuleID.BlockSync then "block_sync"
  else if _moduleID = ModuleID.TxsSync then "txs_sync"
  else if _moduleID = ModuleID.ConsTxsSync then "cons_txs_sync"
  else if _moduleID = ModuleID.AMOP then "amop"
  else if _moduleID = ModuleID.LIGHTNODE_GET_BLOCK then "light_node"
  else "unrecognized module"

/-- One character after an optional change of case: `b` is `a` itself, or `a`
is an ASCII letter and `b` is that letter in the other case. -/
def caseChanged (a b : Char) : Prop :=
  b = a ∨ (a.isLower = true ∧ b = a.toUpper) ∨ (a.isUpper = true ∧ b = a.toLower)

instance (a b : Char) : Decidable (caseChanged a b) := by
  unfold caseChanged; infer_instance

/-- The string `t` is `s` with the case of some of its ASCII letters changed. -/
def caseVariant (s t : String) : Prop :=
  List.Forall₂ caseChanged s.data t.data

instance (s t : String) : Decidable (caseVariant s t) := by
  unfold caseVariant; infer_instance

/-- The seven names of the table of `stringToModuleID`, in the order tested. -/
def moduleNames : List String :=
  ["raft", "pbft", "amop", "block_sync", "txs_sync", "cons_txs_sync", "light_node"]

/-- The ids `moduleIDToString` has a case for. -/
def coveredModuleIDs : List ModuleID :=
  [ModuleID.PBFT, ModuleID.Raft, ModuleID.BlockSync, ModuleID.TxsSync, ModuleID.ConsTxsSync,
    ModuleID.AMOP, ModuleID.LIGHTNODE_GET_BLOCK]

/-- The seventeen enumerators of `ModuleID`, in the order of the source. -/
def moduleIDCatalogue : List ModuleID :=
  [ModuleID.PBFT, ModuleID.Raft, ModuleID.BlockSync, ModuleID.TxsSync, ModuleID.ConsTxsSync,
    ModuleID.AMOP, ModuleID.LIGHTNODE_GET_BLOCK, ModuleID.LIGHTNODE_GET_TRANSACTIONS,
    ModuleID.LIGHTNODE_GET_RECEIPTS, ModuleID.LIGHTNODE_GET_STATUS,
    ModuleID.LIGHTNODE_SEND_TRANSACTION, ModuleID.LIGHTNODE_CALL, ModuleID.LIGHTNODE_GET_ABI,
    ModuleID.LIGHTNODE_END, ModuleID.SYNC_PUSH_TRANSACTION, ModuleID.SYNC_GET_TRANSACTIONS,
    ModuleID.SYNC_END]

/-- The enumerators of `ModuleID` whose name starts with `LIGHTNODE_`. -/
def lightnodeModuleIDs : List ModuleID :=
  [ModuleID.LIGHTNODE_GET_BLOCK, ModuleID.LIGHTNODE_GET_TRANSACTIONS,
    ModuleID.LIGHTNODE_GET_RECEIPTS, ModuleID.LIGHTNODE_GET_STATUS,
    ModuleID.LIGHTNODE_SEND_TRANSACTION, ModuleID.LIGHTNODE_CALL, ModuleID.LIGHTNODE_GET_ABI,
    ModuleID.LIGHTNODE_END]

/-- The enumerators of `ModuleID` whose name starts with `SYNC_`. -/
def syncModuleIDs : List ModuleID :=
  [ModuleID.SYNC_PUSH_TRANSACTION, ModuleID.SYNC_GET_TRANSACTIONS, ModuleID.SYNC_END]

/-- The four role flags of `NodeType`, that is, its enumerators other than
`None`. -/
def nodeTypeFlags : List NodeType :=
  [NodeType.LIGHT_NODE, NodeType.CONSENSUS_NODE, NodeType.OBSERVER_NODE,
    NodeType.NODE_OUTSIDE_GROUP]

/-- The two enumerators of `MessageExtFieldFlag`. -/
def messageExtFieldFlags : List MessageExtFieldFlag :=
  [MessageExtFieldFlag.Response, MessageExtFieldFlag.Compress]

/-- The enumerators of `BlockVersion`, aliases included, and `DEFAULT_VERSION`. -/
def namedVersions : List BlockVersion :=
  [BlockVersion.V3_2_VERSION, BlockVersion.V3_1_VERSION, BlockVersion.V3_0_VERSION,
    BlockVersion.RC4_VERSION, BlockVersion.MIN_VERSION, BlockVersion.MAX_VERSION,
    DEFAULT_VERSION]

/-- The decimal rendering "major.minor.patch" of the top three bytes of a
packed `0xMMmmpp00` value, as the comment above `BlockVersion` reads them. -/
def dottedVersion (v : Nat) : String :=
  toString (v / 2 ^ 24 % 256) ++ "." ++ toString (v / 2 ^ 16 % 256) ++ "." ++
    toString (v / 2 ^ 8 % 256)

/-- A string with its ASCII letters lower-cased, character by character (the
library `String.toLower`, in a form that evaluates in the kernel). -/
def asciiLower (s : String) : String :=
  ⟨s.data.map Char.toLower⟩

/-! ## Characters -/

theorem char_toNat_ofNat_small (n : Nat) (h : n < 55296) : (Char.ofNat n).toNat = n := by
  have hv : n.isValidChar := Or.inl h
  rw [Char.ofNat, dif_pos hv]
  simp [Char.ofNatAux, Char.toNat, UInt32.toNat]

theorem char_eq_iff_toNat (a b : Char) : a = b ↔ a.toNat = b.toNat := by
  constructor
  · intro h; rw [h]
  · intro h
    have := congrArg Char.ofNat h
    simpa using this

theorem toNat_toLower (c : Char) :
    c.toLower.toNat = if 65 ≤ c.toNat ∧ c.toNat ≤ 90 then c.toNat + 32 else c.toNat := by
  unfold Char.toLower
  simp only [ge_iff_le]
  split
  · rw [char_toNat_ofNat_small _ (by omega)]
  · rfl

theorem toNat_toUpper (c : Char) :
    c.toUpper.toNat = if 97 ≤ c.toNat ∧ c.toNat ≤ 122 then c.toNat - 32 else c.toNat := by
  unfold Char.toUpper
  simp only [ge_iff_le]
  split
  · rw [char_toNat_ofNat_small _ (by omega)]
  · rfl

theorem isLower_iff_toNat (c : Char) : c.isLower = true ↔ 97 ≤ c.toNat ∧ c.toNat ≤ 122 := by
  unfold Char.isLower Char.toNat
  simp [UInt32.le_def, BitVec.le_def, UInt32.toNat]

theorem isUpper_iff_toNat (c : Char) : c.isUpper = true ↔ 65 ≤ c.toNat ∧ c.toNat ≤ 90 := by
  unfold Char.isUpper Char.toNat
  simp [UInt32.le_def, BitVec.le_def, UInt32.toNat]

theorem toNat_toupper (c : Char) :
    (boost.toupper c).toNat
      = if 97 ≤ c.toNat ∧ c.toNat ≤ 122 then c.toNat - 32 else c.toNat := by
  unfold boost.toupper
  have ha : 'a'.toNat = 97 := by decide
  have hz : 'z'.toNat = 122 := by decide
  have hA : 'A'.toNat = 65 := by decide
  rw [ha, hz, hA]
  split
  · rw [char_toNat_ofNat_small _ (by omega)]
  · rfl

/-- Upper-casing identifies two characters exactly when lower-casing does. -/
theorem toupper_eq_iff_toLower_eq (a b : Char) :
    boost.toupper a = boost.toupper b ↔ a.toLower = b.toLower := by
  rw [char_eq_iff_toNat, char_eq_iff_toNat, toNat_toupper, toNat_toupper, toNat_toLower,
    toNat_toLower]
  split_ifs <;> omega

theorem is_iequal_iff (a b : Char) :
    boost.is_iequal a b = true ↔ a.toLower = b.toLower := by
  unfold boost.is_iequal
  rw [beq_iff_eq, toupper_eq_iff_toLower_eq]

theorem toupper_eq_of_caseChanged {a b : Char} (h : caseChanged a b) :
    boost.toupper b = boost.toupper a := by
  rw [char_eq_iff_toNat, toNat_toupper, toNat_toupper]
  rcases h with h | ⟨hl, h⟩ | ⟨hu, h⟩
  · rw [h]
  · rw [isLower_iff_toNat] at hl
    have := toNat_toUpper a
    rw [← h] at this
    split_ifs at this ⊢ <;> omega
  · rw [isUpper_iff_toNat] at hu
    have := toNat_toLower a
    rw [← h] at this
    split_ifs at this ⊢ <;> omega

/-! ## The comparison loop -/

theorem equals_is_iequal_iff (s t : List Char) :
    boost.equals boost.is_iequal s t = true ↔ s.map Char.toLower = t.map Char.toLower := by
  induction s generalizing t with
  | nil => cases t <;> simp [boost.equals]
  | cons a s ih =>
    cases t with
    | nil => simp [boost.equals]
    | cons b t =>
      simp only [boost.equals, List.map_cons, List.cons.injEq]
      by_cases hab : boost.is_iequal a b = true
      · have := (is_iequal_iff a b).1 hab
        simp [hab, this, ih]
      · have : ¬ a.toLower = b.toLower := fun h => hab ((is_iequal_iff a b).2 h)
        simp [hab, this]

theorem iequals_iff (s n : String) :
    boost.iequals s n = true ↔ s.data.map Char.toLower = n.data.map Char.toLower := by
  unfold boost.iequals
  exact equals_is_iequal_iff _ _

theorem equals_congr_of_caseChanged {s t : List Char} (h : List.Forall₂ caseChanged s t)
    (u : List Char) :
    boost.equals boost.is_iequal s u = boost.equals boost.is_iequal t u := by
  induction h generalizing u with
  | nil => rfl
  | cons hab _ ih =>
    cases u with
    | nil => simp [boost.equals]
    | cons c u =>
      simp only [boost.equals, boost.is_iequal, toupper_eq_of_caseChanged hab, ih]

theorem iequals_congr_of_caseVariant {s t : String} (h : caseVariant s t) (n : String) :
    boost.iequals s n = boost.iequals t n := by
  unfold boost.iequals
  exact equals_congr_of_caseChanged h _

/-! ## Module names and ids -/

/-- C1. Round trip on the covered subset: whenever `moduleIDToString id` is
not the sentinel "unrecognized module", `stringToModuleID` maps that name
back to `id` (a present value). -/
theorem stringToModuleID_moduleIDToString (id : ModuleID)
    (h : moduleIDToString id ≠ "unrecognized module") :
    stringToModuleID (moduleIDToString id) = some id := by
  unfold moduleIDToString at h ⊢
  split_ifs at h ⊢ with h1 h2 h3 h4 h5 h6 h7
  · rw [h1]; decide
  · rw [h2]; decide
  · rw [h3]; decide
  · rw [h4]; decide
  · rw [h5]; decide
  · rw [h6]; decide
  · rw [h7]; decide
  · exact absurd rfl h

/-- C1, at the seven named ids: each has a name other than the sentinel, and
the round trip returns it. -/
theorem stringToModuleID_moduleIDToString_witness :
    (∀ id ∈ coveredModuleIDs, moduleIDToString id ≠ "unrecognized module") ∧
    stringToModuleID (moduleIDToString ModuleID.PBFT) = some ModuleID.PBFT ∧
    stringToModuleID (moduleIDToString ModuleID.Raft) = some ModuleID.Raft ∧
    stringToModuleID (moduleIDToString ModuleID.BlockSync) = some ModuleID.BlockSync ∧
    stringToModuleID (moduleIDToString ModuleID.TxsSync) = some ModuleID.TxsSync ∧
    stringToModuleID (moduleIDToString ModuleID.ConsTxsSync) = some ModuleID.ConsTxsSync ∧
    stringToModuleID (moduleIDToString ModuleID.AMOP) = some ModuleID.AMOP ∧
    stringToModuleID (moduleIDToString ModuleID.LIGHTNODE_GET_BLOCK)
      = some ModuleID.LIGHTNODE_GET_BLOCK :=
  ⟨by decide,
   stringToModuleID_moduleIDToString ModuleID.PBFT (by decide),
   stringToModuleID_moduleIDToString ModuleID.Raft (by decide),
   stringToModuleID_moduleIDToString ModuleID.BlockSync (by decide),
   stringToModuleID_moduleIDToString ModuleID.TxsSync (by decide),
   stringToModuleID_moduleIDToString ModuleID.ConsTxsSync (by decide),
   stringToModuleID_moduleIDToString ModuleID.AMOP (by decide),
   stringToModuleID_moduleIDToString ModuleID.LIGHTNODE_GET_BLOCK (by decide)⟩

/-! ## Version comparison -/

theorem versionCompareTo_uint32 (a : Nat) (r : BlockVersion) (ha : a < 2 ^ 32)
    (hr : r.val < 2 ^ 32) :
    versionCompareTo (.uint32 a) r = if a = r.val then 0 else if a > r.val then 1 else -1 := by
  have h1 : a % 4294967296 = a := Nat.mod_eq_of_lt (by omega)
  have h2 : r.val % 4294967296 = r.val := Nat.mod_eq_of_lt (by omega)
  simp only [versionCompareTo, VersionVariant.static_cast_uint32, UINT32_MOD, h1, h2]

theorem versionCompareTo_blockVersion (n : Nat) (r : BlockVersion) :
    versionCompareTo (.blockVersion ⟨n⟩) r = versionCompareTo (.uint32 n) r := rfl

/-- C2. `versionCompareTo` is the three-way comparison of the full 32-bit
unsigned values, whichever alternative of the variant carries the first one:
the result is 0 exactly when `a = r`, -1 exactly when `a < r`, 1 exactly when
`a > r`, it is never anything else, and a value compared with itself gives 0. -/
theorem versionCompareTo_three_way (a : Nat) (r : BlockVersion) (v : VersionVariant)
    (ha : a < 2 ^ 32) (hr : r.val < 2 ^ 32)
    (hv : v = VersionVariant.uint32 a ∨ v = VersionVariant.blockVersion ⟨a⟩) :
    (versionCompareTo v r = 0 ↔ a = r.val) ∧
    (versionCompareTo v r = -1 ↔ a < r.val) ∧
    (versionCompareTo v r = 1 ↔ a > r.val) ∧
    (versionCompareTo v r = 0 ∨ versionCompareTo v r = -1 ∨ versionCompareTo v r = 1) ∧
    versionCompareTo (.blockVersion r) r = 0 ∧
    versionCompareTo (.uint32 r.val) r = 0 := by
  have hself : versionCompareTo (.uint32 r.val) r = 0 := by
    rw [versionCompareTo_uint32 _ _ hr hr]; simp
  have hva : versionCompareTo v r = versionCompareTo (.uint32 a) r := by
    rcases hv with h | h <;> rw [h]
    exact versionCompareTo_blockVersion a r
  rw [hva, versionCompareTo_uint32 a r ha hr]
  refine ⟨?_, ?_, ?_, ?_, hself, hself⟩ <;> split_ifs <;> simp <;> omega

/-- C2 at 3.1.1 against `V3_1_VERSION`: the patch byte makes it GREATER. -/
theorem versionCompareTo_three_way_witness :
    (versionCompareTo (.uint32 0x03010100) BlockVersion.V3_1_VERSION = 1
      ↔ 0x03010100 > BlockVersion.V3_1_VERSION.val) ∧
    versionCompareTo (.uint32 0x03010100) BlockVersion.V3_1_VERSION = 1 :=
  ⟨(versionCompareTo_three_way 0x03010100 BlockVersion.V3_1_VERSION (.uint32 0x03010100)
      (by decide) (by decide) (Or.inl rfl)).2.2.1,
   by decide⟩

/-- C3, as stated, fails: 3.1.1 (`0x03010100`) and 3.1.0 (`0x03010000`) agree on
their top two bytes, yet against `V3_1_VERSION` the first is GREATER (1) and
the second EQUAL (0); and against the legacy `RC4_VERSION` (4) the values 3 and
5, whose top two bytes are both zero, fall on opposite sides. -/
theorem versionCompareTo_major_minor_counterexample :
    0x03010100 / 65536 = 0x03010000 / 65536 ∧
    versionCompareTo (.uint32 0x03010100) BlockVersion.V3_1_VERSION = 1 ∧
    versionCompareTo (.uint32 0x03010000) BlockVersion.V3_1_VERSION = 0 ∧
    versionCompareTo (.uint32 0x03010100) BlockVersion.V3_1_VERSION
      ≠ versionCompareTo (.uint32 0x03010000) BlockVersion.V3_1_VERSION ∧
    3 / 65536 = 5 / 65536 ∧
    versionCompareTo (.uint32 3) BlockVersion.RC4_VERSION = -1 ∧
    versionCompareTo (.uint32 5) BlockVersion.RC4_VERSION = 1 := by
  decide

/-- C3, amended. Against a reference whose patch and reserved bytes are zero
(as for `V3_0_VERSION`, `V3_1_VERSION` and `V3_2_VERSION`), whether a 32-bit
value is "not LESS" (`versionCompareTo >= 0`) depends only on its top two
bytes, in either alternative of the variant. -/
theorem versionCompareTo_nonneg_major_minor (a a' : Nat) (r : BlockVersion)
    (ha : a < 2 ^ 32) (ha' : a' < 2 ^ 32) (hr : r.val < 2 ^ 32)
    (htop : a / 65536 = a' / 65536) (hrel : r.val % 65536 = 0) :
    (0 ≤ versionCompareTo (.uint32 a) r ↔ 0 ≤ versionCompareTo (.uint32 a') r) ∧
    (0 ≤ versionCompareTo (.blockVersion ⟨a⟩) r
      ↔ 0 ≤ versionCompareTo (.blockVersion ⟨a'⟩) r) := by
  rw [versionCompareTo_blockVersion, versionCompareTo_blockVersion,
    versionCompareTo_uint32 a r ha hr, versionCompareTo_uint32 a' r ha' hr]
  refine ⟨?_, ?_⟩ <;> split_ifs <;> omega

/-- C3, amended, at 3.1.1 and 3.1.0 against `V3_1_VERSION`: the results differ
(1 and 0) and both are "not LESS"; the three release milestones have zero
patch and reserved bytes. -/
theorem versionCompareTo_nonneg_major_minor_witness :
    (BlockVersion.V3_0_VERSION.val % 65536 = 0 ∧ BlockVersion.V3_1_VERSION.val % 65536 = 0 ∧
      BlockVersion.V3_2_VERSION.val % 65536 = 0) ∧
    0 ≤ versionCompareTo (.uint32 0x03010000) BlockVersion.V3_1_VERSION ∧
    (0 ≤ versionCompareTo (.uint32 0x03010100) BlockVersion.V3_1_VERSION
      ↔ 0 ≤ versionCompareTo (.uint32 0x03010000) BlockVersion.V3_1_VERSION) :=
  ⟨by decide, by decide,
   (versionCompareTo_nonneg_major_minor 0x03010100 0x03010000 BlockVersion.V3_1_VERSION
      (by decide) (by decide) (by decide) (by decide) (by decide)).1⟩

/-! ## Rendering a block version -/

theorem BlockVersion.eq_iff_val (v w : BlockVersion) : v = w ↔ v.val = w.val := by
  cases v; cases w; simp

/-- C4. The `BlockVersion` renderer names exactly the four milestones: it
appends "3.0.0-rc4" for the value 4, "3.0.0" for `0x03000000`, "3.1.0" for
`0x03010000`, "3.2.0" for `0x03020000`, and "Unknown" for every other value,
among them `0x03010100` (3.1.1) and `0xDEADBEEF`. -/
theorem BlockVersion_operator_shl_spec (_out : String) (v : BlockVersion) :
    BlockVersion.operator_shl _out v = _out ++
      (if v.val = 4 then "3.0.0-rc4"
       else if v.val = 0x03000000 then "3.0.0"
       else if v.val = 0x03010000 then "3.1.0"
       else if v.val = 0x03020000 then "3.2.0"
       else "Unknown") ∧
    BlockVersion.operator_shl _out ⟨0x03010100⟩ = _out ++ "Unknown" ∧
    BlockVersion.operator_shl _out ⟨0xDEADBEEF⟩ = _out ++ "Unknown" := by
  refine ⟨?_, ?_, ?_⟩
  · simp only [BlockVersion.operator_shl, BlockVersion.eq_iff_val, BlockVersion.RC4_VERSION,
      BlockVersion.V3_0_VERSION, BlockVersion.V3_1_VERSION, BlockVersion.V3_2_VERSION,
      RC4_VERSION_STR, V3_0_VERSION_STR, V3_1_VERSION_STR, V3_2_VERSION_STR]
    split_ifs <;> rfl
  · simp [BlockVersion.operator_shl, BlockVersion.eq_iff_val, BlockVersion.RC4_VERSION,
      BlockVersion.V3_0_VERSION, BlockVersion.V3_1_VERSION, BlockVersion.V3_2_VERSION]
  · simp [BlockVersion.operator_shl, BlockVersion.eq_iff_val, BlockVersion.RC4_VERSION,
      BlockVersion.V3_0_VERSION, BlockVersion.V3_1_VERSION, BlockVersion.V3_2_VERSION]

/-! ## Looking a module name up -/

/-- C5. `stringToModuleID` is case-insensitive: changing the case of any of
the ASCII letters of its argument does not change its result. -/
theorem stringToModuleID_caseVariant (s t : String) (h : caseVariant s t) :
    stringToModuleID s = stringToModuleID t := by
  unfold stringToModuleID
  simp only [iequals_congr_of_caseVariant h]

/-- C5 at "PBFT", "pbft" and the mixed "pBfT": all give `PBFT`. -/
theorem stringToModuleID_caseVariant_witness :
    caseVariant "PBFT" "pbft" ∧ caseVariant "pbft" "pBfT" ∧
    stringToModuleID "PBFT" = stringToModuleID "pbft" ∧
    stringToModuleID "pbft" = stringToModuleID "pBfT" ∧
    stringToModuleID "pbft" = some ModuleID.PBFT :=
  ⟨by decide, by decide,
   stringToModuleID_caseVariant "PBFT" "pbft" (by decide),
   stringToModuleID_caseVariant "pbft" "pBfT" (by decide),
   by decide⟩

/-- C6. `stringToModuleID` is total, and its result is absent exactly when the
argument is not, with the same length and up to the case of ASCII letters, one
of the seven table names; "not-a-module" is absent. -/
theorem stringToModuleID_eq_none_iff (s : String) :
    (stringToModuleID s = none ↔
      ¬ ∃ n ∈ moduleNames,
          s.length = n.length ∧ s.data.map Char.toLower = n.data.map Char.toLower) ∧
    (stringToModuleID s = none ∨ ∃ id, stringToModuleID s = some id) ∧
    stringToModuleID "not-a-module" = none := by
  have hlen : ∀ n : String, s.data.map Char.toLower = n.data.map Char.toLower →
      s.length = n.length := by
    intro n hn
    have := congrArg List.length hn
    rw [List.length_map, List.length_map] at this
    exact this
  have hiff : ∀ n : String, boost.iequals s n = true ↔
      (s.length = n.length ∧ s.data.map Char.toLower = n.data.map Char.toLower) := by
    intro n
    rw [iequals_iff]
    exact ⟨fun hn => ⟨hlen n hn, hn⟩, fun hn => hn.2⟩
  refine ⟨?_, ?_, by decide⟩
  · constructor
    · rintro hnone ⟨n, hn, hl, hm⟩
      have hn' := (hiff n).2 ⟨hl, hm⟩
      unfold stringToModuleID at hnone
      simp only [moduleNames, List.mem_cons, List.mem_singleton, List.not_mem_nil,
        or_false] at hn
      rcases hn with rfl | rfl | rfl | rfl | rfl | rfl | rfl <;>
        split_ifs at hnone
    · intro h
      unfold stringToModuleID
      split_ifs with h1 h2 h3 h4 h5 h6 h7
      · exact absurd ⟨_, List.mem_cons_self _ _, (hiff _).1 h1⟩ h
      · exact absurd ⟨_, by simp [moduleNames], (hiff _).1 h2⟩ h
      · exact absurd ⟨_, by simp [moduleNames], (hiff _).1 h3⟩ h
      · exact absurd ⟨_, by simp [moduleNames], (hiff _).1 h4⟩ h
      · exact absurd ⟨_, by simp [moduleNames], (hiff _).1 h5⟩ h
      · exact absurd ⟨_, by simp [moduleNames], (hiff _).1 h6⟩ h
      · exact absurd ⟨_, by simp [moduleNames], (hiff _).1 h7⟩ h
      · rfl
  · cases stringToModuleID s with
    | none => exact Or.inl rfl
    | some id => exact Or.inr ⟨id, rfl⟩

/-! ## Naming a module id -/

/-- C7. `moduleIDToString` is total and returns the sentinel "unrecognized
module" for exactly the ids other than PBFT, Raft, BlockSync, TxsSync,
ConsTxsSync, AMOP and LIGHTNODE_GET_BLOCK; AMOP is "amop" and
SYNC_PUSH_TRANSACTION is the sentinel. -/
theorem moduleIDToString_eq_sentinel_iff (id : ModuleID) :
    (moduleIDToString id = "unrecognized module" ↔ id ∉ coveredModuleIDs) ∧
    moduleIDToString ModuleID.AMOP = "amop" ∧
    moduleIDToString ModuleID.SYNC_PUSH_TRANSACTION = "unrecognized module" := by
  refine ⟨?_, by decide, by decide⟩
  simp only [coveredModuleIDs, List.mem_cons, List.mem_singleton, List.not_mem_nil, or_false]
  unfold moduleIDToString
  split_ifs <;> simp_all

/-! ## Milestones and bounds -/

/-- C8. For every pair of the four named milestones taken in the order
RC4_VERSION, V3_0_VERSION, V3_1_VERSION, V3_2_VERSION, comparing the earlier
with the later gives -1 and the later with the earlier gives 1, with the
first argument passed as the named constant or as its raw integer. -/
theorem versionCompareTo_milestones :
    List.Pairwise
      (fun earlier later =>
        versionCompareTo (.blockVersion earlier) later = -1 ∧
        versionCompareTo (.blockVersion later) earlier = 1 ∧
        versionCompareTo (.uint32 earlier.val) later = -1 ∧
        versionCompareTo (.uint32 later.val) earlier = 1)
      [BlockVersion.RC4_VERSION, BlockVersion.V3_0_VERSION, BlockVersion.V3_1_VERSION,
        BlockVersion.V3_2_VERSION] := by
  decide

/-- C9. `MIN_VERSION` and `MAX_VERSION` bracket every named version and
`DEFAULT_VERSION`: each compares as not LESS than `MIN_VERSION` and not
GREATER than `MAX_VERSION`; in particular MIN <= DEFAULT <= MAX. -/
theorem versionCompareTo_min_max :
    (∀ m ∈ [BlockVersion.RC4_VERSION, BlockVersion.V3_0_VERSION, BlockVersion.V3_1_VERSION,
        BlockVersion.V3_2_VERSION, DEFAULT_VERSION],
      versionCompareTo (.blockVersion m) BlockVersion.MIN_VERSION ≥ 0 ∧
      versionCompareTo (.blockVersion m) BlockVersion.MAX_VERSION ≤ 0) ∧
    BlockVersion.MIN_VERSION.val ≤ DEFAULT_VERSION.val ∧
    DEFAULT_VERSION.val ≤ BlockVersion.MAX_VERSION.val := by
  decide

/-- C9 at `DEFAULT_VERSION`. -/
theorem versionCompareTo_min_max_witness :
    versionCompareTo (.blockVersion DEFAULT_VERSION) BlockVersion.MIN_VERSION ≥ 0 ∧
    versionCompareTo (.blockVersion DEFAULT_VERSION) BlockVersion.MAX_VERSION ≤ 0 :=
  versionCompareTo_min_max.1 DEFAULT_VERSION (by decide)

/-- C10. The result of `versionCompareTo` does not depend on the alternative
of the variant that carries the first argument: the raw integer `n` and the
`BlockVersion` whose underlying value is `n` compare alike with every
reference. -/
theorem versionCompareTo_variant_irrelevant (n : Nat) (r : BlockVersion) :
    versionCompareTo (.uint32 n) r = versionCompareTo (.blockVersion ⟨n⟩) r := by
  simp only [versionCompareTo, VersionVariant.static_cast_uint32]

/-! ## The two lookups together -/

theorem stringToModuleID_sentinel : stringToModuleID "unrecognized module" = none := by
  decide

theorem stringToModuleID_of_named (id : ModuleID)
    (h : moduleIDToString id ≠ "unrecognized module") :
    stringToModuleID (moduleIDToString id) = some id := by
  unfold moduleIDToString at h ⊢
  split_ifs at h ⊢ with h1 h2 h3 h4 h5 h6 h7
  · rw [h1]; decide
  · rw [h2]; decide
  · rw [h3]; decide
  · rw [h4]; decide
  · rw [h5]; decide
  · rw [h6]; decide
  · rw [h7]; decide
  · exact absurd rfl h

/-- C11. `moduleIDToString` is not the inverse of `stringToModuleID` outside
the covered subset: distinct ids (SYNC_PUSH_TRANSACTION, SYNC_GET_TRANSACTIONS,
LIGHTNODE_GET_TRANSACTIONS) share one name, and the ids whose name is the
sentinel "unrecognized module" are exactly those whose name is looked up as
absent, and exactly those for which the round trip does not return the id. -/
theorem moduleIDToString_not_inverse (id : ModuleID) :
    (ModuleID.SYNC_PUSH_TRANSACTION ≠ ModuleID.SYNC_GET_TRANSACTIONS ∧
      moduleIDToString ModuleID.SYNC_PUSH_TRANSACTION
        = moduleIDToString ModuleID.SYNC_GET_TRANSACTIONS) ∧
    (ModuleID.SYNC_PUSH_TRANSACTION ≠ ModuleID.LIGHTNODE_GET_TRANSACTIONS ∧
      moduleIDToString ModuleID.SYNC_PUSH_TRANSACTION
        = moduleIDToString ModuleID.LIGHTNODE_GET_TRANSACTIONS) ∧
    (moduleIDToString id = "unrecognized module"
      ↔ stringToModuleID (moduleIDToString id) = none) ∧
    (moduleIDToString id = "unrecognized module"
      ↔ stringToModuleID (moduleIDToString id) ≠ some id) := by
  refine ⟨by decide, by decide, ?_, ?_⟩
  · by_cases h : moduleIDToString id = "unrecognized module"
    · rw [h]; exact ⟨fun _ => stringToModuleID_sentinel, fun _ => rfl⟩
    · rw [stringToModuleID_of_named id h]; simp [h]
  · by_cases h : moduleIDToString id = "unrecognized module"
    · rw [h, stringToModuleID_sentinel]; simp
    · rw [stringToModuleID_of_named id h]; simp [h]

/-! ## The catalogue of module ids -/

/-- C12. The `ModuleID` catalogue is partitioned into disjoint numeric
families: the seventeen enumerators have pairwise distinct values, each value
lies in exactly one range `[1000k, 1000k+999]` with `k` in 1..5 (consensus 1,
synchronization 2, pub/sub 3, light client 4, sync-transaction 5), every
`LIGHTNODE_*` id lies in `[LIGHTNODE_GET_BLOCK, LIGHTNODE_END]`, every `SYNC_*`
id in `[SYNC_PUSH_TRANSACTION, SYNC_END]`, and no value lies in both
intervals. -/
theorem moduleIDCatalogue_families :
    moduleIDCatalogue.length = 17 ∧
    (moduleIDCatalogue.map ModuleID.val).Nodup ∧
    (∀ m ∈ moduleIDCatalogue, ∃ k ∈ [1, 2, 3, 4, 5],
      (1000 * k ≤ m.val ∧ m.val ≤ 1000 * k + 999) ∧
      ∀ j ∈ [1, 2, 3, 4, 5], 1000 * j ≤ m.val ∧ m.val ≤ 1000 * j + 999 → j = k) ∧
    moduleIDCatalogue.map (fun m => m.val / 1000)
      = [1, 1, 2, 2, 2, 3, 4, 4, 4, 4, 4, 4, 4, 4, 5, 5, 5] ∧
    (∀ m ∈ lightnodeModuleIDs,
      ModuleID.LIGHTNODE_GET_BLOCK.val ≤ m.val ∧ m.val ≤ ModuleID.LIGHTNODE_END.val) ∧
    (∀ m ∈ syncModuleIDs,
      ModuleID.SYNC_PUSH_TRANSACTION.val ≤ m.val ∧ m.val ≤ ModuleID.SYNC_END.val) ∧
    (∀ v : Nat,
      ¬ ((ModuleID.LIGHTNODE_GET_BLOCK.val ≤ v ∧ v ≤ ModuleID.LIGHTNODE_END.val) ∧
         (ModuleID.SYNC_PUSH_TRANSACTION.val ≤ v ∧ v ≤ ModuleID.SYNC_END.val))) := by
  refine ⟨by decide, by decide, by decide, by decide, by decide, by decide, ?_⟩
  intro v
  simp only [ModuleID.LIGHTNODE_GET_BLOCK, ModuleID.LIGHTNODE_END,
    ModuleID.SYNC_PUSH_TRANSACTION, ModuleID.SYNC_END]
  omega

/-! ## Node types and extension flags -/

theorem nodeType_eq_iff_val (t u : NodeType) : t = u ↔ t.val = u.val := by
  cases t; cases u; simp

theorem NodeType_operator_shl_val (_out : String) (t : NodeType) :
    NodeType.operator_shl _out t = _out ++
      (if t.val = 0x0 then "None"
       else if t.val = 0x1 then "LIGHT_NODE"
       else if t.val = 0x2 then "CONSENSUS_NODE"
       else if t.val = 0x4 then "OBSERVER_NODE"
       else if t.val = 0x8 then "NODE_OUTSIDE_GROUP"
       else "Unknown") := by
  simp only [NodeType.operator_shl, nodeType_eq_iff_val, NodeType.None, NodeType.LIGHT_NODE,
    NodeType.CONSENSUS_NODE, NodeType.OBSERVER_NODE, NodeType.NODE_OUTSIDE_GROUP]
  split_ifs <;> first | rfl | omega

theorem nodeTypeFlags_or_unnamed :
    ∀ l ∈ nodeTypeFlags.sublists, 2 ≤ l.length →
      (l.map NodeType.val).foldl (· ||| ·) 0 ∉ [0x0, 0x1, 0x2, 0x4, 0x8] := by
  decide

/-- C13. The `NodeType` renderer appends the flag's own name for exactly the
five named values (0x0 "None", 0x1 "LIGHT_NODE", 0x2 "CONSENSUS_NODE", 0x4
"OBSERVER_NODE", 0x8 "NODE_OUTSIDE_GROUP") and "Unknown" for every other
value, among them the bitwise OR of any two or more distinct role flags, such
as CONSENSUS_NODE | OBSERVER_NODE = 0x6. -/
theorem NodeType_operator_shl_spec (_out : String) (t : NodeType) :
    NodeType.operator_shl _out t = _out ++
      (if t.val = 0x0 then "None"
       else if t.val = 0x1 then "LIGHT_NODE"
       else if t.val = 0x2 then "CONSENSUS_NODE"
       else if t.val = 0x4 then "OBSERVER_NODE"
       else if t.val = 0x8 then "NODE_OUTSIDE_GROUP"
       else "Unknown") ∧
    (∀ l ∈ nodeTypeFlags.sublists, 2 ≤ l.length →
      NodeType.operator_shl _out ⟨(l.map NodeType.val).foldl (· ||| ·) 0⟩
        = _out ++ "Unknown") ∧
    NodeType.CONSENSUS_NODE.val ||| NodeType.OBSERVER_NODE.val = 0x6 ∧
    NodeType.operator_shl _out ⟨0x6⟩ = _out ++ "Unknown" := by
  refine ⟨NodeType_operator_shl_val _out t, ?_, by decide, ?_⟩
  · intro l hl h2
    have hno := nodeTypeFlags_or_unnamed l hl h2
    simp only [List.mem_cons, List.mem_singleton, List.not_mem_nil, or_false, not_or] at hno
    rw [NodeType_operator_shl_val]
    simp only [hno.1, hno.2.1, hno.2.2.1, hno.2.2.2.1, hno.2.2.2.2, if_false]
  · rw [NodeType_operator_shl_val]
    simp

/-- C13 at the OR of all four role flags, 0xF. -/
theorem NodeType_operator_shl_spec_witness :
    NodeType.operator_shl "" ⟨(nodeTypeFlags.map NodeType.val).foldl (· ||| ·) 0⟩ = "Unknown" ∧
    (nodeTypeFlags.map NodeType.val).foldl (· ||| ·) 0 = 0xF :=
  ⟨(NodeType_operator_shl_spec "" NodeType.None).2.1 nodeTypeFlags (by decide) (by decide),
   by decide⟩

theorem or_and_of_disjoint (w a b : Nat) (h : a &&& b = 0) : (w ||| a) &&& b = w &&& b := by
  rw [Nat.and_comm, Nat.and_or_distrib_left, Nat.and_comm b a, h, Nat.or_zero, Nat.and_comm]

/-- C14. The bit flags are independent within each enumeration: `Response`
and `Compress` are single bits (bit 0 and bit 4) with no bit in common, so
setting either by bitwise OR in any word leaves the bit of the other
unchanged; the four role flags of `NodeType` are single bits (bits 0 to 3),
pairwise without a common bit, and `None` is 0. -/
theorem flags_independent (w : Nat) :
    MessageExtFieldFlag.Response.val = 2 ^ 0 ∧
    MessageExtFieldFlag.Compress.val = 2 ^ 4 ∧
    MessageExtFieldFlag.Response.val &&& MessageExtFieldFlag.Compress.val = 0 ∧
    (w ||| MessageExtFieldFlag.Response.val) &&& MessageExtFieldFlag.Compress.val
      = w &&& MessageExtFieldFlag.Compress.val ∧
    (w ||| MessageExtFieldFlag.Compress.val) &&& MessageExtFieldFlag.Response.val
      = w &&& MessageExtFieldFlag.Response.val ∧
    NodeType.None.val = 0 ∧
    nodeTypeFlags.map NodeType.val = [2 ^ 0, 2 ^ 1, 2 ^ 2, 2 ^ 3] ∧
    List.Pairwise (fun a b => a.val &&& b.val = 0) nodeTypeFlags := by
  refine ⟨by decide, by decide, by decide, ?_, ?_, by decide, by decide, by decide⟩
  · exact or_and_of_disjoint w _ _ (by decide)
  · exact or_and_of_disjoint w _ _ (by decide)

/-! ## Release milestones -/

/-- C15. Each release milestone V3_0_VERSION, V3_1_VERSION, V3_2_VERSION is a
32-bit value with reserved low byte 0, and the renderer appends for it the
decimal "major.minor.patch" of its top three bytes ("3.0.0", "3.1.0",
"3.2.0"); among the named constants, the ones not of that form are exactly
those equal to the legacy RC4_VERSION (value 4). -/
theorem release_milestones_dotted (_out : String) :
    (∀ m ∈ [BlockVersion.V3_0_VERSION, BlockVersion.V3_1_VERSION, BlockVersion.V3_2_VERSION],
      m.val < 2 ^ 32 ∧ m.val % 256 = 0 ∧
      BlockVersion.operator_shl _out m = _out ++ dottedVersion m.val) ∧
    [BlockVersion.V3_0_VERSION, BlockVersion.V3_1_VERSION, BlockVersion.V3_2_VERSION].map
        (fun m => dottedVersion m.val) = ["3.0.0", "3.1.0", "3.2.0"] ∧
    (∀ m ∈ namedVersions, m.val % 256 ≠ 0 ↔ m = BlockVersion.RC4_VERSION) ∧
    BlockVersion.RC4_VERSION.val = 4 := by
  refine ⟨?_, by decide, by decide, rfl⟩
  intro m hm
  simp only [List.mem_cons, List.mem_singleton, List.not_mem_nil, or_false] at hm
  rcases hm with rfl | rfl | rfl
  · refine ⟨by decide, by decide, ?_⟩
    have hd : dottedVersion BlockVersion.V3_0_VERSION.val = "3.0.0" := by decide
    rw [hd]; rfl
  · refine ⟨by decide, by decide, ?_⟩
    have hd : dottedVersion BlockVersion.V3_1_VERSION.val = "3.1.0" := by decide
    rw [hd]; rfl
  · refine ⟨by decide, by decide, ?_⟩
    have hd : dottedVersion BlockVersion.V3_2_VERSION.val = "3.2.0" := by decide
    rw [hd]; rfl

/-! ## From a name to an id and back -/

theorem asciiLower_eq_toLower (s : String) : asciiLower s = s.toLower := by
  unfold String.toLower asciiLower
  rw [String.map_eq]

theorem asciiLower_eq_of_iequals (s n : String) (h : boost.iequals s n = true) :
    asciiLower s = asciiLower n := by
  unfold asciiLower
  rw [(iequals_iff s n).1 h]

theorem moduleIDToString_of_stringToModuleID (s : String) (id : ModuleID)
    (hs : stringToModuleID s = some id) : moduleIDToString id = asciiLower s := by
  unfold stringToModuleID at hs
  split_ifs at hs with h1 h2 h3 h4 h5 h6 h7 <;> injection hs with hid <;> subst hid
  · rw [asciiLower_eq_of_iequals s _ h1]; decide
  · rw [asciiLower_eq_of_iequals s _ h2]; decide
  · rw [asciiLower_eq_of_iequals s _ h3]; decide
  · rw [asciiLower_eq_of_iequals s _ h4]; decide
  · rw [asciiLower_eq_of_iequals s _ h5]; decide
  · rw [asciiLower_eq_of_iequals s _ h6]; decide
  · rw [asciiLower_eq_of_iequals s _ h7]; decide

/-- C16. Reverse round trip: when `stringToModuleID s` is present with value
`id`, `moduleIDToString id` is `s` with its ASCII letters lower-cased (also in
the sense of the library `String.toLower`); hence any other string that maps
to the same `id` has the same lower-cased form. -/
theorem moduleIDToString_stringToModuleID (s : String) (id : ModuleID)
    (hs : stringToModuleID s = some id) :
    moduleIDToString id = asciiLower s ∧
    moduleIDToString id = s.toLower ∧
    ∀ t : String, stringToModuleID t = some id → asciiLower t = asciiLower s := by
  refine ⟨moduleIDToString_of_stringToModuleID s id hs, ?_, ?_⟩
  · rw [← asciiLower_eq_toLower]
    exact moduleIDToString_of_stringToModuleID s id hs
  · intro t ht
    rw [← moduleIDToString_of_stringToModuleID s id hs,
      ← moduleIDToString_of_stringToModuleID t id ht]

/-- C16 at "Block_Sync" and "BLOCK_SYNC", which both map to `BlockSync`. -/
theorem moduleIDToString_stringToModuleID_witness :
    stringToModuleID "Block_Sync" = some ModuleID.BlockSync ∧
    asciiLower "Block_Sync" = "block_sync" ∧
    moduleIDToString ModuleID.BlockSync = asciiLower "Block_Sync" ∧
    asciiLower "BLOCK_SYNC" = asciiLower "Block_Sync" :=
  ⟨by decide, by decide,
   (moduleIDToString_stringToModuleID "Block_Sync" ModuleID.BlockSync (by decide)).1,
   (moduleIDToString_stringToModuleID "Block_Sync" ModuleID.BlockSync (by decide)).2.2
     "BLOCK_SYNC" (by decide)⟩

/-! ## The shared ext field -/

/-- C17, as stated, fails: `LIGHT_NODE` (0x1) is a non-zero `NodeType` value and
has the very bit of `Response` (0x0001), so their bitwise AND is 1, not 0. -/
theorem light_node_shares_response_bit :
    NodeType.LIGHT_NODE ∈ nodeTypeFlags ∧
    MessageExtFieldFlag.Response ∈ messageExtFieldFlags ∧
    NodeType.LIGHT_NODE.val ≠ 0 ∧
    NodeType.LIGHT_NODE.val = MessageExtFieldFlag.Response.val ∧
    NodeType.LIGHT_NODE.val &&& MessageExtFieldFlag.Response.val = 1 ∧
    ¬ (NodeType.LIGHT_NODE.val &&& MessageExtFieldFlag.Response.val = 0) := by
  decide

/-- C17, amended. Among the enumerators of `NodeType` and those of
`MessageExtFieldFlag`, the only pair with a set bit in common is `LIGHT_NODE`
with `Response`: every other `NodeType` flag shares no bit with `Response` or
`Compress`, and `LIGHT_NODE` shares none with `Compress`. -/
theorem nodeType_ext_flag_overlap (n : NodeType) (f : MessageExtFieldFlag)
    (hn : n ∈ NodeType.None :: nodeTypeFlags) (hf : f ∈ messageExtFieldFlags) :
    (n.val &&& f.val = 0 ↔ ¬ (n = NodeType.LIGHT_NODE ∧ f = MessageExtFieldFlag.Response)) ∧
    (n ≠ NodeType.LIGHT_NODE → n.val &&& f.val = 0) ∧
    (f = MessageExtFieldFlag.Compress → n.val &&& f.val = 0) := by
  have hall : ∀ n ∈ NodeType.None :: nodeTypeFlags, ∀ f ∈ messageExtFieldFlags,
      (n.val &&& f.val = 0 ↔ ¬ (n = NodeType.LIGHT_NODE ∧ f = MessageExtFieldFlag.Response)) ∧
      (n ≠ NodeType.LIGHT_NODE → n.val &&& f.val = 0) ∧
      (f = MessageExtFieldFlag.Compress → n.val &&& f.val = 0) := by
    decide
  exact hall n hn f hf

/-- C17, amended, at `CONSENSUS_NODE` (0x2) with `Response`, and at `LIGHT_NODE`
with `Compress`: no bit in common. -/
theorem nodeType_ext_flag_overlap_witness :
    NodeType.CONSENSUS_NODE.val &&& MessageExtFieldFlag.Response.val = 0 ∧
    NodeType.LIGHT_NODE.val &&& MessageExtFieldFlag.Compress.val = 0 :=
  ⟨(nodeType_ext_flag_overlap NodeType.CONSENSUS_NODE MessageExtFieldFlag.Response
      (by decide) (by decide)).2.1 (by decide),
   (nodeType_ext_flag_overlap NodeType.LIGHT_NODE MessageExtFieldFlag.Compress
      (by decide) (by decide)).2.2 rfl⟩

/-! ## Major version bounds -/

/-- C18, as stated, fails: the legacy `RC4_VERSION` (4), which is
`MIN_VERSION` and so lies between `MIN_VERSION` and `MAX_VERSION`, has major
byte 0, below `MIN_MAJOR_VERSION` (3). -/
theorem major_version_bounds_counterexample :
    BlockVersion.MIN_VERSION = BlockVersion.RC4_VERSION ∧
    versionCompareTo (.blockVersion BlockVersion.RC4_VERSION) BlockVersion.MIN_VERSION = 0 ∧
    versionCompareTo (.blockVersion BlockVersion.RC4_VERSION) BlockVersion.MAX_VERSION = -1 ∧
    BlockVersion.RC4_VERSION.val / 2 ^ 24 = 0 ∧
    ¬ (MIN_MAJOR_VERSION ≤ BlockVersion.RC4_VERSION.val / 2 ^ 24) := by
  decide

/-- C18, amended. The major byte (top 8 bits) of every named `BlockVersion`
constant is at most `MAX_MAJOR_VERSION` (255), and it is at least
`MIN_MAJOR_VERSION` (3) for exactly the named constants other than the legacy
`RC4_VERSION` (alias `MIN_VERSION`): the release milestones V3_0_VERSION,
V3_1_VERSION and V3_2_VERSION (alias `MAX_VERSION`) and `DEFAULT_VERSION`. -/
theorem major_version_bounds_release :
    (∀ m ∈ namedVersions,
      m.val < 2 ^ 32 ∧
      versionCompareTo (.blockVersion m) BlockVersion.MIN_VERSION ≥ 0 ∧
      versionCompareTo (.blockVersion m) BlockVersion.MAX_VERSION ≤ 0 ∧
      m.val / 2 ^ 24 ≤ MAX_MAJOR_VERSION ∧
      (MIN_MAJOR_VERSION ≤ m.val / 2 ^ 24 ↔ m ≠ BlockVersion.RC4_VERSION)) ∧
    (∀ m ∈ [BlockVersion.V3_0_VERSION, BlockVersion.V3_1_VERSION, BlockVersion.V3_2_VERSION,
        BlockVersion.MAX_VERSION, DEFAULT_VERSION],
      MIN_MAJOR_VERSION ≤ m.val / 2 ^ 24 ∧ m.val / 2 ^ 24 ≤ MAX_MAJOR_VERSION) := by
  decide

/-- C18, amended, at `MAX_VERSION`: its major byte is 3. -/
theorem major_version_bounds_release_witness :
    BlockVersion.MAX_VERSION.val / 2 ^ 24 = 3 ∧
    MIN_MAJOR_VERSION ≤ BlockVersion.MAX_VERSION.val / 2 ^ 24 ∧
    BlockVersion.MAX_VERSION.val / 2 ^ 24 ≤ MAX_MAJOR_VERSION :=
  ⟨by decide, major_version_bounds_release.2 BlockVersion.MAX_VERSION (by decide)⟩

end bcos.protocol
